import Mathlib

/-!
# rembg-rest: the request pipeline and the service lifecycle

A shallow embedding of `main.go`.  The program is a thin orchestration layer
around three collaborators that are not part of the repository: the Go image
codecs (`image.Decode`, `png.Encode`), the child process `/usr/local/bin/rembg`
and the echo/net-http response writer.  The collaborators are parameters of the
model (`Codec`, `World.child`, `Response.room`), the zerolog level rules are
modelled in `parseLevel` and `written`; the program's own control flow
(`rembgExec`, `rembg`, `main`/`doMain`) is translated statement by statement and
every externally visible action is recorded in an effect trace.
-/

namespace Rembg

/-- Raw octets, as carried by `bytes.Buffer`, the request body and the wire. -/
abbrev Bytes := List Nat

/-! ## Go error values -/

/-- The Go `error` values the program can hold.
`lib` is an error produced by a collaborator (image codec, `os/exec`, the
connection); `errorf t c` is `fmt.Errorf(t + "%w", c)`; `wrap c m` is
`errors.Wrap(c, m)` of `github.com/pkg/errors`; `httpError` is echo's
`*echo.HTTPError`, the only error kind that carries an HTTP status. -/
inductive GoError where
  | lib (msg : String)
  | errorf (text : String) (cause : GoError)
  | wrap (cause : GoError) (msg : String)
  | httpError (code : Nat) (msg : String)
  deriving DecidableEq, Repr

/-- The text of `err.Error()`. -/
def GoError.message : GoError → String
  | .lib m => m
  | .errorf t c => t ++ c.message
  | .wrap c m => m ++ ": " ++ c.message
  | .httpError code m => "code=" ++ toString code ++ ", message=" ++ m

/-! ## Log levels

The program logs through the zerolog global logger, and `main` sets the global
level from the variable `LEVEL`.  A record is written only when its level is
not below the global level. -/

/-- The zerolog level numbers. -/
def traceLevel : Int := -1

/-- The level `zerolog.DebugLevel`, which is also the global level at start. -/
def debugLevel : Int := 0

/-- The level `zerolog.InfoLevel`. -/
def infoLevel : Int := 1

/-- The level `zerolog.WarnLevel`. -/
def warnLevel : Int := 2

/-- The level `zerolog.ErrorLevel`. -/
def errorLevel : Int := 3

/-- The level `zerolog.FatalLevel`. -/
def fatalLevel : Int := 4

/-- The level `zerolog.PanicLevel`. -/
def panicLevel : Int := 5

/-- The level `zerolog.NoLevel`, whose name is the empty string. -/
def noLevel : Int := 6

/-- The level `zerolog.Disabled`. -/
def disabledLevel : Int := 7

/-- Simple case folding of one character, as far as the level names need it:
upper-case ASCII, the long s (U+017F) and the Kelvin sign (U+212A). -/
def foldChar (c : Char) : Char :=
  if c.toNat = 383 then 's'
  else if c.toNat = 8490 then 'k'
  else c.toLower

/-- The test `strings.EqualFold(s, name)` for a lower-case ASCII `name`. -/
def equalFold (s name : String) : Bool :=
  s.toList.map foldChar == name.toList

/-- The value of `strconv.Atoi` restricted to the range of a zerolog level:
an optional sign followed by at least one decimal digit, between -128 and 127. -/
def atoiLevel (s : String) : Option Int :=
  let parse (neg : Bool) (ds : List Char) : Option Int :=
    if ds.isEmpty || !ds.all Char.isDigit then none
    else
      let n : Int := Int.ofNat (ds.foldl (fun a c => 10 * a + (c.toNat - 48)) 0)
      let v : Int := if neg then -n else n
      if v > 127 || v < -128 then none else some v
  match s.toList with
  | '-' :: ds => parse true ds
  | '+' :: ds => parse false ds
  | ds => parse false ds

/-- The function `zerolog.ParseLevel`: a level name (compared without regard to
case; the empty string is the name of `NoLevel`), or a number; `none` is its
error. -/
def parseLevel (s : String) : Option Int :=
  if equalFold s "trace" then some traceLevel
  else if equalFold s "debug" then some debugLevel
  else if equalFold s "info" then some infoLevel
  else if equalFold s "warn" then some warnLevel
  else if equalFold s "error" then some errorLevel
  else if equalFold s "fatal" then some fatalLevel
  else if equalFold s "panic" then some panicLevel
  else if equalFold s "disabled" then some disabledLevel
  else if equalFold s "" then some noLevel
  else atoiLevel s

/-- The global level after the first statement of `main`, for the value
`cfgLevel` of `LEVEL`: the parsed level, or the level at start when parsing
fails. -/
def levelFor (cfgLevel : String) : Int :=
  match parseLevel cfgLevel with
  | some l => l
  | none => debugLevel

/-- The zerolog test `should`: a record of level `lvl` is written under the
global level `global` exactly when `lvl` is not below it. -/
def written (global lvl : Int) : Bool := decide (global ≤ lvl)

/-! ## Collaborators -/

/-- The image codec library: `png.Encode` into a sink that never fails and
`image.Decode` (PNG and JPEG are registered).  Each either yields a value or a
library error text. -/
structure Codec (Img : Type) where
  pngEncode : Img → Except String Bytes
  decode : Bytes → Except String Img

deriving instance DecidableEq for Except

/-- How a run of the child process ended, as seen by `cmd.Run()`. -/
inductive RunStatus where
  | exited (code : Nat)
  | notStarted (reason : String)
  | killed (reason : String)
  deriving DecidableEq, Repr

/-- One run of the child: what it wrote to the two sinks and how it ended. -/
structure ChildRun where
  stdout : Bytes
  stderr : String
  status : RunStatus
  deriving DecidableEq, Repr

/-- The error returned by `cmd.Run()`: nil exactly for exit status zero. -/
def runError : RunStatus → Option String
  | .exited 0 => none
  | .exited (n + 1) => some ("exit status " ++ toString (n + 1))
  | .notStarted reason => some reason
  | .killed reason => some reason

/-- Everything outside the handler that a request depends on: the codec, the
behaviour of the child process, and the global log level that `main` has set. -/
structure World (Img : Type) where
  codec : Codec Img
  child : Nat → List String → Bytes → ChildRun
  level : Int

/-- Where a call of `png.Encode` writes. -/
inductive Sink where
  | buffer
  | response
  deriving DecidableEq, Repr

/-- Externally visible actions, in program order: a call of `png.Encode`, a
call of `image.Decode`, the creation of a child process, a written log record. -/
inductive Effect where
  | encode (sink : Sink)
  | decode (data : Bytes)
  | spawn (ctx : Nat) (argv : List String) (stdin : Bytes)
  | log (level : String) (fields : List (String × String)) (msg : String)
  deriving DecidableEq, Repr

/-- The spawns of a trace, each with its context and argument vector. -/
def spawnsOf : List Effect → List (Nat × List String)
  | [] => []
  | .spawn ctx argv _ :: rest => (ctx, argv) :: spawnsOf rest
  | _ :: rest => spawnsOf rest

/-- The buffers handed to `image.Decode` in a trace. -/
def decodesOf : List Effect → List Bytes
  | [] => []
  | .decode data :: rest => data :: decodesOf rest
  | _ :: rest => decodesOf rest

/-- The sinks of the `png.Encode` calls of a trace. -/
def encodesOf : List Effect → List Sink
  | [] => []
  | .encode sink :: rest => sink :: encodesOf rest
  | _ :: rest => encodesOf rest

/-- The log records of a trace: level, fields, message. -/
def logsOf : List Effect → List (String × List (String × String) × String)
  | [] => []
  | .log level fields msg :: rest => (level, fields, msg) :: logsOf rest
  | _ :: rest => logsOf rest

/-! ## The subprocess pipeline -/

/-- The constant `rembgPath`. -/
def rembgPath : String := "/usr/local/bin/rembg"

/-- The argument vector of `exec.CommandContext(ctx, rembgPath, "i")`. -/
def rembgArgv : List String := [rembgPath, "i"]

/-- The text of `cmd.String()`: the path followed by the remaining arguments. -/
def cmdString (argv : List String) : String := " ".intercalate argv

/-- The process creation of `cmd.Run()`: a child process exists unless `Run`
failed before starting one (context already done, executable not startable). -/
def spawnEffect (status : RunStatus) (ctx : Nat) (stdin : Bytes) : List Effect :=
  match status with
  | .notStarted _ => []
  | _ => [.spawn ctx rembgArgv stdin]

/-- The call `log.Error()...Msg(msg)`: a record, when the global level lets
error records through. -/
def logError (global : Int) (fields : List (String × String)) (msg : String) : List Effect :=
  if written global errorLevel then [.log "error" fields msg] else []

/-- The pair `(image.Image, error)` returned by `rembgExec`, with the trace. -/
structure ExecOutcome (Img : Type) where
  img : Option Img
  err : Option GoError
  trace : List Effect

/-- The function `rembgExec(ctx, src)`. -/
def rembgExec {Img : Type} (w : World Img) (ctx : Nat) (src : Img) : ExecOutcome Img :=
  match w.codec.pngEncode src with
  | .error e =>
    ⟨none, some (.errorf "unable to encode source image to PNG: " (.lib e)), [.encode .buffer]⟩
  | .ok srcBuffer =>
    let run := w.child ctx rembgArgv srcBuffer
    match runError run.status with
    | some e =>
      ⟨none, some (.errorf "failed to remove background with rembg: " (.lib e)),
        .encode .buffer :: (spawnEffect run.status ctx srcBuffer ++
          logError w.level
            [("error", e), ("stderr", run.stderr), ("cmd", cmdString rembgArgv)]
            "Error while rembg")⟩
    | none =>
      match w.codec.decode run.stdout with
      | .error e =>
        ⟨none, some (.errorf "failed to decode answer from rembg: " (.lib e)),
          .encode .buffer :: (spawnEffect run.status ctx srcBuffer ++ [.decode run.stdout])⟩
      | .ok dst =>
        ⟨some dst, none,
          .encode .buffer :: (spawnEffect run.status ctx srcBuffer ++ [.decode run.stdout])⟩

/-! ## The HTTP response and the handler -/

/-- The echo response of one request.  `status` is the field
`c.Response().Status`; `wireStatus` and `body` are what has been sent to the
client; `room` is the number of octets the connection will still accept
(`none`: it never fails). -/
structure Response where
  status : Nat
  header : List (String × String)
  committed : Bool
  wireStatus : Nat
  body : Bytes
  room : Option Nat
  deriving DecidableEq, Repr

/-- The response echo hands to a handler: nothing set, nothing sent. -/
def Response.fresh (room : Option Nat) : Response :=
  ⟨0, [], false, 0, [], room⟩

/-- The call `Header().Set(key, value)`. -/
def Response.setHeader (r : Response) (key value : String) : Response :=
  { r with header := (key, value) :: r.header.filter (fun kv => kv.1 != key) }

/-- The value `Header().Get(key)`. -/
def Response.getHeader (r : Response) (key : String) : Option String :=
  (r.header.find? (fun kv => kv.1 == key)).map (fun kv => kv.2)

/-- The error a write returns when the connection takes fewer octets than it
is given. -/
def connectionError : String := "write: broken pipe"

/-- Whether a connection with the given room takes `n` more octets. -/
def fits (room : Option Nat) (n : Nat) : Bool :=
  match room with
  | none => true
  | some k => decide (n ≤ k)

/-- The first write commits the status line (200 when none was set). -/
def Response.commit (r : Response) : Response :=
  if r.committed then r
  else
    let st := if r.status = 0 then 200 else r.status
    { r with status := st, committed := true, wireStatus := st }

/-- The method `Response.Write`: commit, then hand the octets to the
connection, which takes what it has room for and reports an error when that is
not everything. -/
def Response.write (r : Response) (b : Bytes) : Response × Option String :=
  let r1 := r.commit
  match r1.room with
  | none => ({ r1 with body := r1.body ++ b }, none)
  | some k =>
    if b.length ≤ k then ({ r1 with body := r1.body ++ b, room := some (k - b.length) }, none)
    else ({ r1 with body := r1.body ++ b.take k, room := some 0 }, some connectionError)

/-- The call `png.Encode(c.Response(), m)`: the encoder rejects the image
before writing anything, or streams the encoding into the response. -/
def pngEncodeTo {Img : Type} (codec : Codec Img) (r : Response) (m : Img) :
    Response × Option GoError :=
  match codec.pngEncode m with
  | .error e => (r, some (.lib e))
  | .ok bs => ((r.write bs).1, (r.write bs).2.map GoError.lib)

/-- The echo context of one request: its cancellation scope, its body and its
response. -/
structure Context where
  ctx : Nat
  body : Bytes
  response : Response
  deriving DecidableEq, Repr

/-- The context of a request as the framework creates it. -/
def Context.new (ctx : Nat) (body : Bytes) (room : Option Nat) : Context :=
  ⟨ctx, body, Response.fresh room⟩

/-- The constant `echo.HeaderContentType`. -/
def headerContentType : String := "Content-Type"

/-- The response as `rembg` prepares it before encoding the result: status
field 200 and the content type set. -/
def Response.prepared (r : Response) : Response :=
  ({ r with status := 200 }).setHeader headerContentType "image/png"

/-- What a handler leaves behind: its returned error, the response, the trace. -/
structure HandlerOutcome where
  err : Option GoError
  resp : Response
  trace : List Effect
  deriving DecidableEq, Repr

/-- The handler `rembg(c)`.  The last branch is the nil-image dereference that
Go would hit if `rembgExec` returned neither an image nor an error. -/
def rembg {Img : Type} (w : World Img) (c : Context) : HandlerOutcome :=
  match w.codec.decode c.body with
  | .error e => ⟨some (.lib e), c.response, [.decode c.body]⟩
  | .ok src =>
    let r := rembgExec w c.ctx src
    match r.err, r.img with
    | some e, _ =>
      ⟨some (.wrap e "unable to exec rembg"), c.response, .decode c.body :: r.trace⟩
    | none, some woBG =>
      let resp := c.response.prepared
      ⟨(pngEncodeTo w.codec resp woBG).2, (pngEncodeTo w.codec resp woBG).1,
        .decode c.body :: r.trace ++ [.encode .response]⟩
    | none, none =>
      let resp := c.response.prepared
      ⟨some (.lib "invalid memory address or nil pointer dereference"), resp,
        .decode c.body :: r.trace⟩

/-- The status chosen by echo's default error handler for a returned error:
the code of an `*echo.HTTPError`, and 500 for every other error. -/
def echoErrorStatus : GoError → Nat
  | .httpError code _ => code
  | _ => 500

/-- The status the client sees: the committed one if the response has been
committed (the error handler then leaves it alone), otherwise the one the
framework derives from the handler's return value. -/
def clientStatus (o : HandlerOutcome) : Nat :=
  if o.resp.committed then o.resp.wireStatus
  else
    match o.err with
    | some e => echoErrorStatus e
    | none => 200

/-! ## A concrete world for evaluation -/

/-- A small raster image. -/
structure Raster where
  width : Nat
  height : Nat
  pixels : List Nat
  deriving DecidableEq, Repr

/-- The PNG signature. -/
def pngMagic : Bytes := [137, 80, 78, 71]

/-- A toy lossless codec with the shape of Go's: the encoder rejects an image
with an empty side ("invalid image size"), the decoder rejects whatever does
not start with the signature or has an empty side or a wrong pixel count. -/
def toyCodec : Codec Raster where
  pngEncode m :=
    if m.width = 0 ∨ m.height = 0 then
      .error ("png: invalid format: invalid image size: " ++ toString m.width ++ "x" ++
        toString m.height)
    else .ok (pngMagic ++ [m.width, m.height] ++ m.pixels)
  decode
    | 137 :: 80 :: 78 :: 71 :: w :: h :: px =>
      if w = 0 ∨ h = 0 then .error "png: invalid format: non-positive dimension"
      else if px.length = w * h then .ok ⟨w, h, px⟩
      else .error "unexpected EOF"
    | _ => .error "image: unknown format"

/-- A child that is never started: the context is already done. -/
def unstartedChild : Nat → List String → Bytes → ChildRun :=
  fun _ _ _ => ⟨[], "", .notStarted "context canceled"⟩

/-- A child that clears every pixel and exits with status zero. -/
def clearingChild : Nat → List String → Bytes → ChildRun :=
  fun _ _ stdin => ⟨stdin.take 6 ++ (stdin.drop 6).map (fun _ => 0), "", .exited 0⟩

/-- A child that writes a diagnostic and exits with status one. -/
def failingChild : Nat → List String → Bytes → ChildRun :=
  fun _ _ _ => ⟨[], "boom", .exited 1⟩

/-- A child that exits with status zero after writing garbage. -/
def garbageChild : Nat → List String → Bytes → ChildRun :=
  fun _ _ _ => ⟨[1, 2, 3], "", .exited 0⟩

/-- The toy codec with a working tool, under `LEVEL=debug`. -/
def goodWorld : World Raster := ⟨toyCodec, clearingChild, levelFor "debug"⟩

/-- The world whose tool fails, under `LEVEL=debug`. -/
def failWorld : World Raster := ⟨toyCodec, failingChild, levelFor "debug"⟩

/-- The world whose tool fails, with `LEVEL` unset. -/
def quietFailWorld : World Raster := ⟨toyCodec, failingChild, levelFor ""⟩

/-- The world whose tool reports success and writes garbage. -/
def garbageWorld : World Raster := ⟨toyCodec, garbageChild, levelFor "debug"⟩

/-- The world in which no child process can be started. -/
def unstartedWorld : World Raster := ⟨toyCodec, unstartedChild, levelFor "debug"⟩

/-- A 2x1 image and its encoding. -/
def sampleImage : Raster := ⟨2, 1, [7, 9]⟩

/-- The encoding of `sampleImage`. -/
def sampleBody : Bytes := [137, 80, 78, 71, 2, 1, 7, 9]

/-- An image with an empty side, as `image.NewRGBA(image.Rect(0, 0, 0, 0))`. -/
def emptyImage : Raster := ⟨0, 0, []⟩

/-! ## The service lifecycle (`main` and `doMain`) -/

/-- The process environment. -/
abbrev Environ := List (String × String)

/-- The value of `os.LookupEnv`: the first binding of the key, if any. -/
def lookupEnv (env : Environ) (key : String) : Option String :=
  (env.find? (fun kv => kv.1 == key)).map (fun kv => kv.2)

/-- The value of `os.Getenv`: the empty string when the key is not bound. -/
def getenv (env : Environ) (key : String) : String :=
  (lookupEnv env key).getD ""

/-- The package variable `cfgLevel`. -/
def cfgLevel (env : Environ) : String := getenv env "LEVEL"

/-- The package variable `cfgListenOn`. -/
def cfgListenOn (env : Environ) : String := getenv env "LISTEN"

/-- The zerolog global level once `main` has handled `cfgLevel`. -/
def globalLevel (env : Environ) : Int := levelFor (cfgLevel env)

/-- The constant `time.Second`, in nanoseconds. -/
def second : Nat := 1000000000

/-- The constant `shutdownTimeout`. -/
def shutdownTimeout : Nat := 30 * second

/-- The two signals the watcher subscribes to. -/
inductive Sig where
  | sigterm
  | sigint
  deriving DecidableEq, Repr

/-- The text of `os.Signal.String()`. -/
def Sig.name : Sig → String
  | .sigterm => "terminated"
  | .sigint => "interrupt"

/-- The lifecycle actions the program performs, in program order: a line
printed to standard error, a written log record, a call of `cancel`, of
`echoServer.Start`, of `echoServer.Shutdown`. -/
inductive Act where
  | stderr (text : String)
  | log (level : String) (msg : String)
  | cancel
  | start (address : String)
  | shutdown (grace : Nat)
  deriving DecidableEq, Repr

/-- The goroutine started in `main`'s closure, which runs the listener. -/
inductive ListenerPc where
  | idle
  | serving
  | exited
  deriving DecidableEq, Repr

/-- The body of `main`'s closure: blocked on `ctx.Done()`, inside
`echoServer.Shutdown`, or returned. -/
inductive RunnerPc where
  | waiting
  | draining
  | returned
  deriving DecidableEq, Repr

/-- The signal goroutine of `doMain`: before `signal.Notify`, blocked on
`quit`, or finished. -/
inductive WatcherPc where
  | idle
  | waiting
  | done
  deriving DecidableEq, Repr

/-- A call of the global logger at level `lvl`: a record, when the global
level lets it through. -/
def logAct (global lvl : Int) (name msg : String) : List Act :=
  if written global lvl then [.log name msg] else []

/-- The state of the running service. -/
structure Service where
  listenOn : String
  level : Int
  cancelled : Bool
  listener : ListenerPc
  runner : RunnerPc
  watcher : WatcherPc
  quit : Option Sig
  retChan : Option String
  served : Nat
  exited : Bool
  effects : List Act
  deriving DecidableEq, Repr

/-- The state in which `main` has handled `cfgLevel` (setting the global level,
or printing a complaint when it does not parse) and `doMain` has created the
context and started its goroutines, none of which has run yet. -/
def boot (env : Environ) : Service :=
  ⟨cfgListenOn env, globalLevel env, false, .idle, .waiting, .idle, none, none, 0, false,
    match parseLevel (cfgLevel env) with
    | some _ => []
    | none => [.stderr ("unable to parse level " ++ cfgLevel env)]⟩

/-- What can happen next. -/
inductive Event where
  | listenerRuns
  | startFails (reason : String)
  | startClosed
  | request
  | watcherRuns
  | signal (sig : Sig)
  | watcherWakes
  | runnerWakes
  | shutdownReturns (err : Option String)
  | mainExits
  deriving DecidableEq, Repr

/-- One step of the service; `none` when the event cannot happen in the state.
Every log call goes through `logAct`, that is, through the global level.

* `listenerRuns`: the listener goroutine checks `cfgListenOn`; when empty it
  logs, returns and its deferred `cancel` runs; otherwise it enters
  `echoServer.Start`.
* `startFails`: `Start` returns an error other than `http.ErrServerClosed`;
  it is logged and the deferred `cancel` runs.
* `startClosed`: `Start` returns `http.ErrServerClosed`, which it does only
  once `Shutdown` has been called; the deferred `cancel` runs.
* `request`: the listener accepts and serves a request, which it does only
  while it is serving and `Shutdown` has not been called.
* `watcherRuns`: the signal goroutine creates `quit` and calls
  `signal.Notify`.
* `signal`: the operating system delivers a signal.  Before `signal.Notify`
  the default disposition ends the process; afterwards the signal is put into
  the one-slot channel `quit` or dropped when the slot is taken.
* `watcherWakes`: the signal goroutine receives from `quit`, logs and calls
  `cancel`.
* `runnerWakes`: `ctx.Done()` is closed, the closure creates the 30 s context
  and calls `echoServer.Shutdown`.
* `shutdownReturns`: `Shutdown` returns (nil or the timeout error), the
  deferred `cancel` runs, a non-nil error is sent to `retChan`, which is then
  closed.
* `mainExits`: `doMain` drains `retChan`, logging the error if there is one,
  its deferred `cancel` runs and the process exits. -/
def step (s : Service) (e : Event) : Option Service :=
  if s.exited then none
  else
    match e with
    | .listenerRuns =>
      if s.listener = .idle then
        if s.listenOn = "" then
          some { s with
            listener := .exited, cancelled := true,
            effects := s.effects ++
              (logAct s.level errorLevel "error" "Specify LISTEN env" ++ [.cancel]) }
        else
          some { s with listener := .serving, effects := s.effects ++ [.start s.listenOn] }
      else none
    | .startFails _ =>
      if s.listener = .serving then
        some { s with
          listener := .exited, cancelled := true,
          effects := s.effects ++
            (logAct s.level errorLevel "error" "Unable to start echo server" ++ [.cancel]) }
      else none
    | .startClosed =>
      if s.listener = .serving ∧ s.runner ≠ .waiting then
        some { s with
          listener := .exited, cancelled := true, effects := s.effects ++ [.cancel] }
      else none
    | .request =>
      if s.listener = .serving ∧ s.runner = .waiting then
        some { s with served := s.served + 1 }
      else none
    | .watcherRuns =>
      if s.watcher = .idle then some { s with watcher := .waiting } else none
    | .signal sig =>
      if s.watcher = .idle then some { s with exited := true }
      else if s.quit = none then some { s with quit := some sig }
      else some s
    | .watcherWakes =>
      match s.watcher, s.quit with
      | .waiting, some sig =>
        some { s with
          watcher := .done, quit := none, cancelled := true,
          effects := s.effects ++
            (logAct s.level warnLevel "warn" ("Signal '" ++ sig.name ++ "' was caught. Exiting")
              ++ [.cancel]) }
      | _, _ => none
    | .runnerWakes =>
      if s.runner = .waiting ∧ s.cancelled = true then
        some { s with runner := .draining, effects := s.effects ++ [.shutdown shutdownTimeout] }
      else none
    | .shutdownReturns err =>
      if s.runner = .draining then
        some { s with
          runner := .returned, cancelled := true, retChan := err,
          effects := s.effects ++ [.cancel] }
      else none
    | .mainExits =>
      if s.runner = .returned then
        some { s with
          exited := true, cancelled := true,
          effects := s.effects ++
            ((match s.retChan with
              | some _ => logAct s.level errorLevel "error" "Exiting."
              | none => []) ++ [.cancel]) }
      else none

/-- Run a sequence of events; `none` when one of them cannot happen. -/
def exec (s : Service) : List Event → Option Service
  | [] => some s
  | e :: es => (step s e).bind (fun t => exec t es)

/-- The events in which the program handles one of the three shutdown
triggers, for a service configured with `listenOn`: the listener goroutine
finding no address, the listener failing, the signal goroutine receiving a
signal. -/
def isTrigger (listenOn : String) : Event → Bool
  | .listenerRuns => listenOn == ""
  | .startFails _ => true
  | .watcherWakes => true
  | _ => false

/-- The grace periods of the `Shutdown` calls among the actions. -/
def shutdownsOf (l : List Act) : List Nat :=
  l.filterMap (fun a => match a with
    | .shutdown g => some g
    | _ => none)

/-- The phases of the lifecycle. -/
inductive Phase where
  | running
  | shuttingDown
  | stopped
  deriving DecidableEq, Repr

/-- The phase of a state: running until the context is cancelled, stopped once
the closure of `main` has returned. -/
def phase (s : Service) : Phase :=
  if s.runner = .returned then .stopped
  else if s.cancelled then .shuttingDown
  else .running

/-- The lifecycle state: the cancellation token, the phase, the error slot and
the `Shutdown` calls made so far. -/
def lifecycle (s : Service) : Bool × Phase × Option String × List Nat :=
  (s.cancelled, phase s, s.retChan, shutdownsOf s.effects)

/-- Every `Shutdown` call among the actions comes after a `cancel`. -/
def CancelFirst (l : List Act) : Prop :=
  ∀ pre g post, l = pre ++ Act.shutdown g :: post → Act.cancel ∈ pre

/-- What holds in every reachable state. -/
structure Inv (s : Service) : Prop where
  shutdowns : shutdownsOf s.effects = if s.runner = .waiting then [] else [shutdownTimeout]
  runnerCancelled : s.runner ≠ .waiting → s.cancelled = true
  cancelLogged : s.cancelled = true → Act.cancel ∈ s.effects
  cancelFirst : CancelFirst s.effects

/-- An environment that sets the address under the name the program reads. -/
def sampleEnv : Environ := [("LISTEN", "127.0.0.1:8080"), ("LEVEL", "debug")]

/-- A run in which the listener starts, an interrupt is caught and the closure
of `main` calls `Shutdown`. -/
def sampleRun : List Event :=
  [.listenerRuns, .watcherRuns, .signal .sigint, .watcherWakes, .runnerWakes]

/-- The state `sampleRun` ends in. -/
def sampleState : Service :=
  ⟨"127.0.0.1:8080", 0, true, .serving, .draining, .done, none, none, 0, false,
    [.start "127.0.0.1:8080", .log "warn" "Signal 'interrupt' was caught. Exiting", .cancel,
     .shutdown 30000000000]⟩

/-- The state after the listener fails in `sampleState`. -/
def sampleFailed : Service :=
  ⟨"127.0.0.1:8080", 0, true, .exited, .draining, .done, none, none, 0, false,
    [.start "127.0.0.1:8080", .log "warn" "Signal 'interrupt' was caught. Exiting", .cancel,
     .shutdown 30000000000, .log "error" "Unable to start echo server", .cancel]⟩

/-! ## Facts about the pipeline -/

section Pipeline

variable {Img : Type}

/-- The outcome of `rembgExec` when the source image cannot be encoded. -/
lemma rembgExec_encode_error (w : World Img) (ctx : Nat) (src : Img) (e : String)
    (h : w.codec.pngEncode src = .error e) :
    rembgExec w ctx src =
      ⟨none, some (.errorf "unable to encode source image to PNG: " (.lib e)),
        [.encode .buffer]⟩ := by
  simp [rembgExec, h]

/-- The outcome of `rembgExec` when `cmd.Run()` returns an error. -/
lemma rembgExec_run_error (w : World Img) (ctx : Nat) (src : Img) (bs : Bytes) (e : String)
    (h : w.codec.pngEncode src = .ok bs)
    (hr : runError (w.child ctx rembgArgv bs).status = some e) :
    rembgExec w ctx src =
      ⟨none, some (.errorf "failed to remove background with rembg: " (.lib e)),
        .encode .buffer :: (spawnEffect (w.child ctx rembgArgv bs).status ctx bs ++
          logError w.level
            [("error", e), ("stderr", (w.child ctx rembgArgv bs).stderr),
             ("cmd", cmdString rembgArgv)]
            "Error while rembg")⟩ := by
  simp [rembgExec, h, hr]

/-- The outcome of `rembgExec` when the child succeeds with undecodable output. -/
lemma rembgExec_decode_error (w : World Img) (ctx : Nat) (src : Img) (bs : Bytes) (e : String)
    (h : w.codec.pngEncode src = .ok bs)
    (hr : runError (w.child ctx rembgArgv bs).status = none)
    (hd : w.codec.decode (w.child ctx rembgArgv bs).stdout = .error e) :
    rembgExec w ctx src =
      ⟨none, some (.errorf "failed to decode answer from rembg: " (.lib e)),
        .encode .buffer :: (spawnEffect (w.child ctx rembgArgv bs).status ctx bs ++
          [.decode (w.child ctx rembgArgv bs).stdout])⟩ := by
  simp [rembgExec, h, hr, hd]

/-- The outcome of `rembgExec` when everything succeeds. -/
lemma rembgExec_ok (w : World Img) (ctx : Nat) (src : Img) (bs : Bytes) (d : Img)
    (h : w.codec.pngEncode src = .ok bs)
    (hr : runError (w.child ctx rembgArgv bs).status = none)
    (hd : w.codec.decode (w.child ctx rembgArgv bs).stdout = .ok d) :
    rembgExec w ctx src =
      ⟨some d, none,
        .encode .buffer :: (spawnEffect (w.child ctx rembgArgv bs).status ctx bs ++
          [.decode (w.child ctx rembgArgv bs).stdout])⟩ := by
  simp [rembgExec, h, hr, hd]

/-- The four ways `rembgExec` can end. -/
lemma rembgExec_cases (w : World Img) (ctx : Nat) (src : Img) :
    (∃ e, w.codec.pngEncode src = .error e) ∨
    (∃ bs e, w.codec.pngEncode src = .ok bs ∧
      runError (w.child ctx rembgArgv bs).status = some e) ∨
    (∃ bs e, w.codec.pngEncode src = .ok bs ∧
      runError (w.child ctx rembgArgv bs).status = none ∧
      w.codec.decode (w.child ctx rembgArgv bs).stdout = .error e) ∨
    (∃ bs d, w.codec.pngEncode src = .ok bs ∧
      runError (w.child ctx rembgArgv bs).status = none ∧
      w.codec.decode (w.child ctx rembgArgv bs).stdout = .ok d) := by
  cases h : w.codec.pngEncode src with
  | error e => exact Or.inl ⟨e, rfl⟩
  | ok bs =>
    right
    cases hr : runError (w.child ctx rembgArgv bs).status with
    | some e => exact Or.inl ⟨bs, e, rfl, hr⟩
    | none =>
      right
      cases hd : w.codec.decode (w.child ctx rembgArgv bs).stdout with
      | error e => exact Or.inl ⟨bs, e, rfl, hr, hd⟩
      | ok d => exact Or.inr ⟨bs, d, rfl, hr, hd⟩

/-- The error of `cmd.Run()` is nil only for exit status zero. -/
lemma runError_none (st : RunStatus) (h : runError st = none) : st = .exited 0 := by
  cases st with
  | exited c =>
    cases c with
    | zero => rfl
    | succ m => simp [runError] at h
  | notStarted r => simp [runError] at h
  | killed r => simp [runError] at h

/-- The spawns of a trace that starts with an encoding. -/
lemma spawnsOf_encode (sink : Sink) (l : List Effect) :
    spawnsOf (.encode sink :: l) = spawnsOf l := rfl

/-- The spawns of two traces. -/
lemma spawnsOf_append (a b : List Effect) : spawnsOf (a ++ b) = spawnsOf a ++ spawnsOf b := by
  induction a with
  | nil => rfl
  | cons x a ih => cases x <;> simp [spawnsOf, ih]

/-- A log call spawns nothing. -/
lemma spawnsOf_logError (g : Int) (fields : List (String × String)) (msg : String) :
    spawnsOf (logError g fields msg) = [] := by
  unfold logError; split <;> rfl

/-- The spawns of the process creation. -/
lemma spawnsOf_spawnEffect (st : RunStatus) (ctx : Nat) (bs : Bytes) :
    spawnsOf (spawnEffect st ctx bs) =
      (match st with
       | .notStarted _ => []
       | _ => [(ctx, rembgArgv)]) := by
  cases st <;> rfl

/-- When `rembgExec` returns an image it returns no error. -/
lemma rembgExec_img_err (w : World Img) (ctx : Nat) (src : Img) (d : Img)
    (h : (rembgExec w ctx src).img = some d) : (rembgExec w ctx src).err = none := by
  rcases rembgExec_cases w ctx src with ⟨e, h1⟩ | ⟨bs, e, h1, h2⟩ | ⟨bs, e, h1, h2, h3⟩ |
    ⟨bs, d2, h1, h2, h3⟩
  · rw [rembgExec_encode_error w ctx src e h1] at h; simp at h
  · rw [rembgExec_run_error w ctx src bs e h1 h2] at h; simp at h
  · rw [rembgExec_decode_error w ctx src bs e h1 h2 h3] at h; simp at h
  · rw [rembgExec_ok w ctx src bs d2 h1 h2 h3]

/-- Every call of `rembgExec` starts by encoding into a buffer, so a trace
without such an action contains no call of it. -/
lemma rembgExec_trace_head (w : World Img) (ctx : Nat) (src : Img) :
    ∃ rest, (rembgExec w ctx src).trace = .encode .buffer :: rest := by
  rcases rembgExec_cases w ctx src with ⟨e, h1⟩ | ⟨bs, e, h1, h2⟩ | ⟨bs, e, h1, h2, h3⟩ |
    ⟨bs, d2, h1, h2, h3⟩
  · rw [rembgExec_encode_error w ctx src e h1]; exact ⟨_, rfl⟩
  · rw [rembgExec_run_error w ctx src bs e h1 h2]; exact ⟨_, rfl⟩
  · rw [rembgExec_decode_error w ctx src bs e h1 h2 h3]; exact ⟨_, rfl⟩
  · rw [rembgExec_ok w ctx src bs d2 h1 h2 h3]; exact ⟨_, rfl⟩

/-- The prepared response: status field 200, content type set, nothing sent. -/
lemma prepared_fresh (room : Option Nat) :
    (Response.fresh room).prepared =
      ⟨200, [(headerContentType, "image/png")], false, 0, [], room⟩ := by
  simp [Response.prepared, Response.setHeader, Response.fresh]

/-- Writing into the prepared response of a fresh context. -/
lemma write_prepared (room : Option Nat) (bs : Bytes) :
    (Response.fresh room).prepared.write bs =
      (match room with
       | none =>
         (⟨200, [(headerContentType, "image/png")], true, 200, bs, none⟩, none)
       | some k =>
         if bs.length ≤ k then
           (⟨200, [(headerContentType, "image/png")], true, 200, bs, some (k - bs.length)⟩,
             none)
         else
           (⟨200, [(headerContentType, "image/png")], true, 200, bs.take k, some 0⟩,
             some connectionError)) := by
  rw [prepared_fresh]
  cases room with
  | none => simp [Response.write, Response.commit]
  | some k =>
    by_cases hk : bs.length ≤ k <;> simp [Response.write, Response.commit, hk]

/-- The handler's outcome when the body decodes and the pipeline returns an
image that the encoder accepts. -/
lemma rembg_encoded (w : World Img) (ctx : Nat) (body : Bytes) (room : Option Nat)
    (src d : Img) (bs : Bytes)
    (hsrc : w.codec.decode body = .ok src)
    (hexec : (rembgExec w ctx src).img = some d)
    (henc : w.codec.pngEncode d = .ok bs) :
    rembg w (Context.new ctx body room) =
      ⟨((Response.fresh room).prepared.write bs).2.map GoError.lib,
        ((Response.fresh room).prepared.write bs).1,
        .decode body :: (rembgExec w ctx src).trace ++ [.encode .response]⟩ := by
  have herr := rembgExec_img_err w ctx src d hexec
  simp [rembg, Context.new, hsrc, herr, hexec, pngEncodeTo, henc]

/-- The handler's outcome when the body decodes and the pipeline returns an
image that the encoder rejects. -/
lemma rembg_rejected (w : World Img) (ctx : Nat) (body : Bytes) (room : Option Nat)
    (src d : Img) (e : String)
    (hsrc : w.codec.decode body = .ok src)
    (hexec : (rembgExec w ctx src).img = some d)
    (henc : w.codec.pngEncode d = .error e) :
    rembg w (Context.new ctx body room) =
      ⟨some (.lib e), (Response.fresh room).prepared,
        .decode body :: (rembgExec w ctx src).trace ++ [.encode .response]⟩ := by
  have herr := rembgExec_img_err w ctx src d hexec
  simp [rembg, Context.new, hsrc, herr, hexec, pngEncodeTo, henc]

end Pipeline

/-! ## The request handler and the pipeline -/

section Handler

variable {Img : Type}

/-- C1, as stated, fails: the body decodes, the pipeline returns an image, yet
the connection takes only three octets of the encoding, so the handler returns
the write error and the body is not the PNG encoding of the result. -/
theorem rembg_success_can_fail_on_write :
    toyCodec.decode sampleBody = .ok sampleImage ∧
    (rembgExec goodWorld 1 sampleImage).img = some ⟨2, 1, [0, 0]⟩ ∧
    toyCodec.pngEncode ⟨2, 1, [0, 0]⟩ = .ok [137, 80, 78, 71, 2, 1, 0, 0] ∧
    (rembg goodWorld (Context.new 1 sampleBody (some 3))).err =
      some (.lib "write: broken pipe") ∧
    (rembg goodWorld (Context.new 1 sampleBody (some 3))).resp.body = [137, 80, 78] := by
  decide

/-- C1, amended: when the body decodes to an image and `rembgExec` returns an
image `d`, the response has status field 200 and the Content-Type header
image/png, and the handler returns what `png.Encode` of `d` into the response
returns.  When the encoder accepts `d` and the connection takes every octet,
the handler returns no error, status 200 has been sent and the body is the PNG
encoding of `d`.  When the connection takes fewer octets, the handler returns
the write error, and the octets it took have been sent under status 200.
When the encoder rejects `d`, the handler returns the encoder's error and
nothing has been sent. -/
theorem rembg_success_response (w : World Img) (ctx : Nat) (body : Bytes) (room : Option Nat)
    (src d : Img)
    (hsrc : w.codec.decode body = .ok src)
    (hexec : (rembgExec w ctx src).img = some d) :
    (rembg w (Context.new ctx body room)).resp.status = 200 ∧
    (rembg w (Context.new ctx body room)).resp.getHeader "Content-Type" = some "image/png" ∧
    (match w.codec.pngEncode d with
     | .ok bs =>
       if fits room bs.length then
         (rembg w (Context.new ctx body room)).err = none ∧
         (rembg w (Context.new ctx body room)).resp.wireStatus = 200 ∧
         (rembg w (Context.new ctx body room)).resp.body = bs
       else
         (rembg w (Context.new ctx body room)).err = some (.lib connectionError) ∧
         (rembg w (Context.new ctx body room)).resp.wireStatus = 200 ∧
         (rembg w (Context.new ctx body room)).resp.body = bs.take (room.getD 0)
     | .error e =>
       (rembg w (Context.new ctx body room)).err = some (.lib e) ∧
       (rembg w (Context.new ctx body room)).resp.committed = false ∧
       (rembg w (Context.new ctx body room)).resp.body = []) := by
  cases henc : w.codec.pngEncode d with
  | error e =>
    rw [rembg_rejected w ctx body room src d e hsrc hexec henc, prepared_fresh]
    simp [Response.getHeader, headerContentType]
  | ok bs =>
    rw [rembg_encoded w ctx body room src d bs hsrc hexec henc, write_prepared]
    cases room with
    | none => simp [fits, Response.getHeader, headerContentType]
    | some k =>
      by_cases hk : bs.length ≤ k <;> simp [fits, hk, Response.getHeader, headerContentType]

/-- Witness: the sample request on a connection that never fails. -/
theorem rembg_success_response_witness :
    (rembg goodWorld (Context.new 1 sampleBody none)).resp.status = 200 ∧
    (rembg goodWorld (Context.new 1 sampleBody none)).resp.getHeader "Content-Type" =
      some "image/png" ∧
    (rembg goodWorld (Context.new 1 sampleBody none)).err = none ∧
    (rembg goodWorld (Context.new 1 sampleBody none)).resp.wireStatus = 200 ∧
    (rembg goodWorld (Context.new 1 sampleBody none)).resp.body =
      [137, 80, 78, 71, 2, 1, 0, 0] :=
  have h := rembg_success_response goodWorld 1 sampleBody none sampleImage ⟨2, 1, [0, 0]⟩
    (by decide) (by decide)
  ⟨h.1, h.2.1, h.2.2⟩

/-- C2: when the request body does not decode as an image, the handler returns
the decode error, the response is left untouched, and the only recorded action
is the decode attempt itself: `rembgExec` was not entered (no `png.Encode` into
a buffer) and no child process was spawned; the outcome is the same whatever
the child process would have done and whatever the log level is. -/
theorem rembg_decode_failure_no_spawn (w : World Img) (c : Context) (e : String)
    (h : w.codec.decode c.body = .error e) :
    (rembg w c).err = some (.lib e) ∧
    (rembg w c).resp = c.response ∧
    (rembg w c).trace = [.decode c.body] ∧
    encodesOf (rembg w c).trace = [] ∧
    spawnsOf (rembg w c).trace = [] ∧
    ∀ child level, rembg ⟨w.codec, child, level⟩ c = rembg w c := by
  refine ⟨?_, ?_, ?_, ?_, ?_, ?_⟩
  · simp [rembg, h]
  · simp [rembg, h]
  · simp [rembg, h]
  · simp [rembg, h, encodesOf]
  · simp [rembg, h, spawnsOf]
  · intro child level
    simp [rembg, h]

/-- Witness: a two-octet body. -/
theorem rembg_decode_failure_no_spawn_witness :
    (rembg goodWorld (Context.new 1 [1, 2] none)).err = some (.lib "image: unknown format") ∧
    (rembg goodWorld (Context.new 1 [1, 2] none)).resp = Response.fresh none ∧
    (rembg goodWorld (Context.new 1 [1, 2] none)).trace = [.decode [1, 2]] ∧
    spawnsOf (rembg goodWorld (Context.new 1 [1, 2] none)).trace = [] :=
  have h := rembg_decode_failure_no_spawn goodWorld (Context.new 1 [1, 2] none)
    "image: unknown format" (by decide)
  ⟨h.1, h.2.1, h.2.2.1, h.2.2.2.2.1⟩

/-- C3, as stated, fails: a body that does not decode makes the handler return
the bare decode error, which the framework answers with 500, not with a 4xx
status, and a tool failure is answered with the same 500. -/
theorem rembg_decode_failure_is_500 :
    toyCodec.decode [1, 2] = .error "image: unknown format" ∧
    clientStatus (rembg goodWorld (Context.new 1 [1, 2] none)) = 500 ∧
    ¬ (400 ≤ clientStatus (rembg goodWorld (Context.new 1 [1, 2] none)) ∧
        clientStatus (rembg goodWorld (Context.new 1 [1, 2] none)) < 500) ∧
    clientStatus (rembg failWorld (Context.new 1 sampleBody none)) =
      clientStatus (rembg goodWorld (Context.new 1 [1, 2] none)) := by
  decide

/-- C3, amended: when the body does not decode as an image, the handler returns
the decode error itself, which carries no HTTP status and is answered with 500;
a pipeline failure is answered with the same 500, and the two failures differ
only in the returned error value (the pipeline failure is wrapped with
"unable to exec rembg"). -/
theorem rembg_decode_failure_status (w : World Img) (ctx : Nat) (body : Bytes)
    (room : Option Nat) (e : String) (h : w.codec.decode body = .error e) :
    (rembg w (Context.new ctx body room)).err = some (.lib e) ∧
    clientStatus (rembg w (Context.new ctx body room)) = 500 ∧
    ∀ (w2 : World Img) (ctx2 : Nat) (body2 : Bytes) (room2 : Option Nat) (src : Img)
      (e2 : GoError), w2.codec.decode body2 = .ok src →
      (rembgExec w2 ctx2 src).err = some e2 →
      (rembg w2 (Context.new ctx2 body2 room2)).err = some (.wrap e2 "unable to exec rembg") ∧
      clientStatus (rembg w2 (Context.new ctx2 body2 room2)) = 500 ∧
      (rembg w2 (Context.new ctx2 body2 room2)).err ≠
        (rembg w (Context.new ctx body room)).err := by
  refine ⟨by simp [rembg, Context.new, h], ?_, ?_⟩
  · simp [rembg, Context.new, h, clientStatus, Response.fresh, echoErrorStatus]
  · intro w2 ctx2 body2 room2 src e2 hsrc he2
    simp [rembg, Context.new, h, hsrc, he2, clientStatus, Response.fresh, echoErrorStatus]

/-- Witness: a two-octet body. -/
theorem rembg_decode_failure_status_witness :
    (rembg goodWorld (Context.new 1 [1, 2] none)).err = some (.lib "image: unknown format") ∧
    clientStatus (rembg goodWorld (Context.new 1 [1, 2] none)) = 500 :=
  ⟨(rembg_decode_failure_status goodWorld 1 [1, 2] none "image: unknown format"
      (by decide)).1,
   (rembg_decode_failure_status goodWorld 1 [1, 2] none "image: unknown format"
      (by decide)).2.1⟩

/-- C4, as stated, fails: with `LEVEL` unset `main` sets the global level to
`NoLevel`; the tool exits with status 1 after writing "boom", and no
diagnostics are recorded for the failure. -/
theorem rembgExec_nonzero_exit_not_logged :
    quietFailWorld.level = levelFor (getenv [] "LEVEL") ∧
    quietFailWorld.level = noLevel ∧
    (quietFailWorld.child 1 rembgArgv sampleBody).status = .exited 1 ∧
    (quietFailWorld.child 1 rembgArgv sampleBody).stderr = "boom" ∧
    (rembgExec quietFailWorld 1 sampleImage).err =
      some (.errorf "failed to remove background with rembg: " (.lib "exit status 1")) ∧
    logsOf (rembgExec quietFailWorld 1 sampleImage).trace = [] := by
  decide

/-- C4, amended: when the child process ends with a non-zero exit status and
has written `s` to its diagnostic stream, `rembgExec` returns an error and no
image, never calls `image.Decode`, and makes one error-level log call whose
fields hold `s` under "stderr" and the command line under "cmd"; that record
is written when the global level set from `LEVEL` is not above the error level
and is dropped otherwise. -/
theorem rembgExec_nonzero_exit (w : World Img) (ctx : Nat) (src : Img) (bs : Bytes) (n : Nat)
    (s : String)
    (henc : w.codec.pngEncode src = .ok bs)
    (hexit : (w.child ctx rembgArgv bs).status = .exited (n + 1))
    (hs : (w.child ctx rembgArgv bs).stderr = s) :
    (rembgExec w ctx src).img = none ∧
    (rembgExec w ctx src).err =
      some (.errorf "failed to remove background with rembg: "
        (.lib ("exit status " ++ toString (n + 1)))) ∧
    decodesOf (rembgExec w ctx src).trace = [] ∧
    logsOf (rembgExec w ctx src).trace =
      (if w.level ≤ 3 then
        [("error",
          [("error", "exit status " ++ toString (n + 1)), ("stderr", s),
           ("cmd", "/usr/local/bin/rembg i")],
          "Error while rembg")]
       else []) := by
  have hr : runError (w.child ctx rembgArgv bs).status =
      some ("exit status " ++ toString (n + 1)) := by
    rw [hexit]; rfl
  have hc : cmdString rembgArgv = "/usr/local/bin/rembg i" := by decide
  rw [rembgExec_run_error w ctx src bs _ henc hr, hs, hexit, hc]
  refine ⟨rfl, rfl, ?_, ?_⟩
  · by_cases hl : w.level ≤ 3 <;>
      simp [spawnEffect, logError, written, errorLevel, hl, decodesOf]
  · by_cases hl : w.level ≤ 3 <;>
      simp [spawnEffect, logError, written, errorLevel, hl, logsOf]

/-- Witness: the tool exits with status 1 after writing "boom", under
`LEVEL=debug`. -/
theorem rembgExec_nonzero_exit_witness :
    (rembgExec failWorld 1 sampleImage).img = none ∧
    decodesOf (rembgExec failWorld 1 sampleImage).trace = [] ∧
    logsOf (rembgExec failWorld 1 sampleImage).trace =
      [("error",
        [("error", "exit status 1"), ("stderr", "boom"), ("cmd", "/usr/local/bin/rembg i")],
        "Error while rembg")] :=
  have h := rembgExec_nonzero_exit failWorld 1 sampleImage sampleBody 0 "boom" (by decide)
    (by decide) (by decide)
  ⟨h.1, h.2.2.1, h.2.2.2.trans (by decide)⟩

/-- C5: when the child exits with status zero and its output does not decode,
`rembgExec` returns the output-decode failure and no image, and that failure
differs from the failure of every call in which the child exits non-zero. -/
theorem rembgExec_output_decode_failure (w : World Img) (ctx : Nat) (src : Img) (bs : Bytes)
    (e : String)
    (henc : w.codec.pngEncode src = .ok bs)
    (hexit : (w.child ctx rembgArgv bs).status = .exited 0)
    (hdec : w.codec.decode (w.child ctx rembgArgv bs).stdout = .error e) :
    (rembgExec w ctx src).img = none ∧
    (rembgExec w ctx src).err =
      some (.errorf "failed to decode answer from rembg: " (.lib e)) ∧
    ∀ (w2 : World Img) (ctx2 : Nat) (src2 : Img) (bs2 : Bytes) (n : Nat),
      w2.codec.pngEncode src2 = .ok bs2 →
      (w2.child ctx2 rembgArgv bs2).status = .exited (n + 1) →
      (rembgExec w2 ctx2 src2).err ≠ (rembgExec w ctx src).err := by
  have hr : runError (w.child ctx rembgArgv bs).status = none := by rw [hexit]; rfl
  rw [rembgExec_decode_error w ctx src bs e henc hr hdec]
  refine ⟨rfl, rfl, ?_⟩
  intro w2 ctx2 src2 bs2 n henc2 hexit2
  have hr2 : runError (w2.child ctx2 rembgArgv bs2).status =
      some ("exit status " ++ toString (n + 1)) := by
    rw [hexit2]; rfl
  rw [rembgExec_run_error w2 ctx2 src2 bs2 _ henc2 hr2]
  simp only [ne_eq, Option.some.injEq, GoError.errorf.injEq, not_and]
  intro h
  exact absurd h (by decide)

/-- Witness: the tool exits with status zero after writing three octets of
garbage. -/
theorem rembgExec_output_decode_failure_witness :
    (rembgExec garbageWorld 1 sampleImage).img = none ∧
    (rembgExec garbageWorld 1 sampleImage).err =
      some (.errorf "failed to decode answer from rembg: " (.lib "image: unknown format")) ∧
    (rembgExec failWorld 1 sampleImage).err ≠ (rembgExec garbageWorld 1 sampleImage).err :=
  have h := rembgExec_output_decode_failure garbageWorld 1 sampleImage sampleBody
    "image: unknown format" (by decide) (by decide) (by decide)
  ⟨h.1, h.2.1, h.2.2 failWorld 1 sampleImage sampleBody 0 (by decide) (by decide)⟩

/-- C6: `rembgExec` returns exactly one of an image and an error.  When the
error is non-nil the image is nil; when the error is nil the image is the one
decoded from the output of the child run on the encoded source; it never
returns both and never returns neither. -/
theorem rembgExec_exactly_one (w : World Img) (ctx : Nat) (src : Img) :
    (((rembgExec w ctx src).err.isSome = true ∧ (rembgExec w ctx src).img = none) ∨
      ((rembgExec w ctx src).err = none ∧
        ∃ bs d, w.codec.pngEncode src = .ok bs ∧
          (w.child ctx rembgArgv bs).status = .exited 0 ∧
          w.codec.decode (w.child ctx rembgArgv bs).stdout = .ok d ∧
          (rembgExec w ctx src).img = some d)) ∧
    ¬ ((rembgExec w ctx src).img.isSome = true ∧ (rembgExec w ctx src).err.isSome = true) ∧
    ¬ ((rembgExec w ctx src).img = none ∧ (rembgExec w ctx src).err = none) := by
  rcases rembgExec_cases w ctx src with ⟨e, h1⟩ | ⟨bs, e, h1, h2⟩ | ⟨bs, e, h1, h2, h3⟩ |
    ⟨bs, d, h1, h2, h3⟩
  · rw [rembgExec_encode_error w ctx src e h1]; exact ⟨Or.inl ⟨rfl, rfl⟩, by simp, by simp⟩
  · rw [rembgExec_run_error w ctx src bs e h1 h2]; exact ⟨Or.inl ⟨rfl, rfl⟩, by simp, by simp⟩
  · rw [rembgExec_decode_error w ctx src bs e h1 h2 h3]
    exact ⟨Or.inl ⟨rfl, rfl⟩, by simp, by simp⟩
  · rw [rembgExec_ok w ctx src bs d h1 h2 h3]
    exact ⟨Or.inr ⟨rfl, bs, d, h1, runError_none _ h2, h3, rfl⟩, by simp, by simp⟩

/-- C7, as stated, fails: the connection takes five octets of the eight of the
encoding; the handler returns an error, yet five octets of image body have
been sent, under status 200, and they are not a complete encoding. -/
theorem rembg_truncated_body_with_200 :
    (rembg goodWorld (Context.new 1 sampleBody (some 5))).err.isSome = true ∧
    (rembg goodWorld (Context.new 1 sampleBody (some 5))).resp.body = [137, 80, 78, 71, 2] ∧
    (rembg goodWorld (Context.new 1 sampleBody (some 5))).resp.committed = true ∧
    (rembg goodWorld (Context.new 1 sampleBody (some 5))).resp.wireStatus = 200 ∧
    clientStatus (rembg goodWorld (Context.new 1 sampleBody (some 5))) = 200 ∧
    toyCodec.decode (rembg goodWorld (Context.new 1 sampleBody (some 5))).resp.body =
      .error "image: unknown format" := by
  decide

/-- C7, amended: every request ends in one of three ways.  Either the handler
returns no error and the complete PNG encoding of the pipeline's image has
been sent under status 200; or it returns an error and nothing has been sent
(no status, no body); or the connection stopped taking octets while the
encoding was streamed, in which case the handler returns an error and what has
been sent under status 200 is the first `k` octets of the encoding, `k` being
fewer than all of them. -/
theorem rembg_response_outcomes (w : World Img) (ctx : Nat) (body : Bytes)
    (room : Option Nat) :
    ((rembg w (Context.new ctx body room)).err = none ∧
      (rembg w (Context.new ctx body room)).resp.wireStatus = 200 ∧
      ∃ src d bs, w.codec.decode body = .ok src ∧ (rembgExec w ctx src).img = some d ∧
        w.codec.pngEncode d = .ok bs ∧
        (rembg w (Context.new ctx body room)).resp.body = bs) ∨
    ((rembg w (Context.new ctx body room)).err.isSome = true ∧
      (rembg w (Context.new ctx body room)).resp.committed = false ∧
      (rembg w (Context.new ctx body room)).resp.body = []) ∨
    ((rembg w (Context.new ctx body room)).err.isSome = true ∧
      (rembg w (Context.new ctx body room)).resp.committed = true ∧
      (rembg w (Context.new ctx body room)).resp.wireStatus = 200 ∧
      ∃ src d bs k, w.codec.decode body = .ok src ∧ (rembgExec w ctx src).img = some d ∧
        w.codec.pngEncode d = .ok bs ∧ room = some k ∧ k < bs.length ∧
        (rembg w (Context.new ctx body room)).resp.body = bs.take k) := by
  cases hsrc : w.codec.decode body with
  | error e =>
    right; left
    simp [rembg, Context.new, hsrc, Response.fresh]
  | ok src =>
    cases herr : (rembgExec w ctx src).err with
    | some e =>
      right; left
      simp [rembg, Context.new, hsrc, herr, Response.fresh]
    | none =>
      cases himg : (rembgExec w ctx src).img with
      | none =>
        right; left
        simp [rembg, Context.new, hsrc, herr, himg, Response.fresh, Response.prepared,
          Response.setHeader]
      | some d =>
        cases henc : w.codec.pngEncode d with
        | error e =>
          right; left
          simp [rembg, Context.new, hsrc, herr, himg, pngEncodeTo, henc, Response.fresh,
            Response.prepared, Response.setHeader]
        | ok bs =>
          cases hroom : room with
          | none =>
            left
            simp [rembg, Context.new, hsrc, herr, himg, pngEncodeTo, henc, Response.fresh,
              Response.prepared, Response.setHeader, Response.write, Response.commit]
          | some k =>
            by_cases hk : bs.length ≤ k
            · left
              simp [rembg, Context.new, hsrc, herr, himg, pngEncodeTo, henc, Response.fresh,
                Response.prepared, Response.setHeader, Response.write, Response.commit, hk]
            · right; right
              have hk2 : k < bs.length := Nat.lt_of_not_le hk
              simp [rembg, Context.new, hsrc, herr, himg, pngEncodeTo, henc, Response.fresh,
                Response.prepared, Response.setHeader, Response.write, Response.commit, hk, hk2]

/-- C8, as stated, fails: for an image that `png.Encode` rejects, the call
returns before the command is created and no child process is spawned; and
for an image that encodes, `cmd.Run()` on a context that is already done
returns before a process is created, so again nothing is spawned. -/
theorem rembgExec_no_spawn_when_encode_fails :
    toyCodec.pngEncode emptyImage = .error "png: invalid format: invalid image size: 0x0" ∧
    (spawnsOf (rembgExec goodWorld 1 emptyImage).trace).length = 0 ∧
    (rembgExec goodWorld 1 emptyImage).err =
      some (.errorf "unable to encode source image to PNG: "
        (.lib "png: invalid format: invalid image size: 0x0")) ∧
    toyCodec.pngEncode sampleImage = .ok sampleBody ∧
    (unstartedWorld.child 1 rembgArgv sampleBody).status = .notStarted "context canceled" ∧
    (spawnsOf (rembgExec unstartedWorld 1 sampleImage).trace).length = 0 ∧
    (rembgExec unstartedWorld 1 sampleImage).err =
      some (.errorf "failed to remove background with rembg: " (.lib "context canceled")) := by
  decide

/-- C8, amended: a call `rembgExec(ctx, src)` spawns at most one child process,
however the run ends.  It spawns exactly one when `src` encodes to PNG and
`cmd.Run()` gets as far as creating the process, and then the spawn is bound to
`ctx` and uses the argument vector `["/usr/local/bin/rembg", "i"]` whatever
`src` is.  It spawns none when encoding `src` fails, and none when `cmd.Run()`
fails before a process exists. -/
theorem rembgExec_spawns (w : World Img) (ctx : Nat) (src : Img) :
    spawnsOf (rembgExec w ctx src).trace =
      (match w.codec.pngEncode src with
       | .ok bs =>
         match (w.child ctx rembgArgv bs).status with
         | .notStarted _ => []
         | _ => [(ctx, ["/usr/local/bin/rembg", "i"])]
       | .error _ => []) ∧
    (spawnsOf (rembgExec w ctx src).trace).length ≤ 1 := by
  have key : spawnsOf (rembgExec w ctx src).trace =
      (match w.codec.pngEncode src with
       | .ok bs =>
         match (w.child ctx rembgArgv bs).status with
         | .notStarted _ => []
         | _ => [(ctx, ["/usr/local/bin/rembg", "i"])]
       | .error _ => []) := by
    rcases rembgExec_cases w ctx src with ⟨e, h1⟩ | ⟨bs, e, h1, h2⟩ | ⟨bs, e, h1, h2, h3⟩ |
      ⟨bs, d, h1, h2, h3⟩
    · rw [rembgExec_encode_error w ctx src e h1, h1]; rfl
    · rw [rembgExec_run_error w ctx src bs e h1 h2, h1]
      simp only [spawnsOf_encode, spawnsOf_append, spawnsOf_logError, List.append_nil,
        spawnsOf_spawnEffect]
      cases (w.child ctx rembgArgv bs).status <;> rfl
    · rw [rembgExec_decode_error w ctx src bs e h1 h2 h3, h1]
      simp only [spawnsOf_encode, spawnsOf_append, spawnsOf_spawnEffect]
      cases (w.child ctx rembgArgv bs).status <;> rfl
    · rw [rembgExec_ok w ctx src bs d h1 h2 h3, h1]
      simp only [spawnsOf_encode, spawnsOf_append, spawnsOf_spawnEffect]
      cases (w.child ctx rembgArgv bs).status <;> rfl
  refine ⟨key, ?_⟩
  rw [key]
  split
  · split <;> simp
  · simp

end Handler

/-! ## The lifecycle -/

/-- Running two sequences of events one after the other. -/
lemma exec_append (s : Service) (a b : List Event) :
    exec s (a ++ b) = (exec s a).bind (fun t => exec t b) := by
  induction a generalizing s with
  | nil => simp [exec]
  | cons e a ih =>
    simp only [List.cons_append, exec]
    cases step s e with
    | none => simp
    | some t => simp [ih]

/-- The `Shutdown` calls of two runs of actions. -/
lemma shutdownsOf_append (a b : List Act) :
    shutdownsOf (a ++ b) = shutdownsOf a ++ shutdownsOf b := by
  simp [shutdownsOf]

/-- A log call is no `Shutdown` call. -/
lemma shutdownsOf_logAct (g lvl : Int) (name msg : String) :
    shutdownsOf (logAct g lvl name msg) = [] := by
  unfold logAct; split <;> rfl

/-- A `cancel` is no `Shutdown` call. -/
lemma shutdownsOf_cancel : shutdownsOf [Act.cancel] = [] := rfl

/-- A `Start` call is no `Shutdown` call. -/
lemma shutdownsOf_start (a : String) : shutdownsOf [Act.start a] = [] := rfl

/-- The one `Shutdown` call of a single action. -/
lemma shutdownsOf_shutdown (g : Nat) : shutdownsOf [Act.shutdown g] = [g] := rfl

/-- A log call contains no `Shutdown` call. -/
lemma shutdown_not_mem_logAct (g lvl : Int) (name msg : String) (n : Nat) :
    Act.shutdown n ∉ logAct g lvl name msg := by
  unfold logAct; split <;> simp

/-- Appending actions that contain no `Shutdown` call keeps the order. -/
lemma CancelFirst.append_other (l new : List Act) (hl : CancelFirst l)
    (hnew : ∀ g, Act.shutdown g ∉ new) : CancelFirst (l ++ new) := by
  intro pre g post h
  rcases List.append_eq_append_iff.mp h with ⟨a, -, h2⟩ | ⟨c, h1, h2⟩
  · exact absurd (by rw [h2]; simp) (hnew g)
  · cases c with
    | nil => exact absurd (by rw [← List.nil_append new, ← h2]; simp) (hnew g)
    | cons x c =>
      simp only [List.cons_append, List.cons.injEq] at h2
      exact hl pre g c (by rw [h1, ← h2.1])

/-- Appending a `Shutdown` call after a `cancel` keeps the order. -/
lemma CancelFirst.append_shutdown (l : List Act) (g0 : Nat) (hl : CancelFirst l)
    (hc : Act.cancel ∈ l) : CancelFirst (l ++ [Act.shutdown g0]) := by
  intro pre g post h
  rcases List.append_eq_append_iff.mp h with ⟨a, h1, h2⟩ | ⟨c, h1, h2⟩
  · cases a with
    | nil => simpa [h1] using hc
    | cons x a =>
      simp only [List.cons_append, List.cons.injEq] at h2
      have := congrArg List.length h2.2
      simp at this
      omega
  · cases c with
    | nil => simpa [h1] using hc
    | cons x c =>
      simp only [List.cons_append, List.cons.injEq] at h2
      exact hl pre g c (by rw [h1, ← h2.1])

/-- The actions of `boot`: at most the complaint about `LEVEL`. -/
lemma boot_effects (env : Environ) :
    (boot env).effects = [] ∨
      (boot env).effects = [.stderr ("unable to parse level " ++ cfgLevel env)] := by
  unfold boot
  cases parseLevel (cfgLevel env) with
  | none => exact Or.inr rfl
  | some l => exact Or.inl rfl

/-- The invariant holds initially. -/
lemma inv_boot (env : Environ) : Inv (boot env) := by
  have hr : (boot env).runner = .waiting := rfl
  have hc : (boot env).cancelled = false := rfl
  rcases boot_effects env with h | h
  · refine ⟨by rw [h, hr]; rfl, by simp [hr], by simp [hc], ?_⟩
    intro pre g post h2
    rw [h] at h2
    simp at h2
  · refine ⟨by rw [h, hr]; rfl, by simp [hr], by simp [hc], ?_⟩
    intro pre g post h2
    rw [h] at h2
    cases pre with
    | nil => simp at h2
    | cons x pre =>
      simp only [List.cons_append, List.cons.injEq] at h2
      have := congrArg List.length h2.2
      simp at this
      omega

/-- The invariant is kept by every step. -/
lemma inv_step (s t : Service) (e : Event) (hi : Inv s) (h : step s e = some t) : Inv t := by
  obtain ⟨h1, h2, h3, h4⟩ := hi
  unfold step at h
  split at h
  · cases h
  · cases e <;> dsimp only at h <;> (repeat' split at h) <;> cases h <;>
      (refine ⟨?_, ?_, ?_, ?_⟩
       · simp_all [shutdownsOf_append, shutdownsOf_logAct, shutdownsOf_cancel,
           shutdownsOf_start, shutdownsOf_shutdown]
       · simp_all
       · simp_all
       · first
         | exact h4
         | (apply CancelFirst.append_shutdown _ _ h4; apply h3; simp_all)
         | (apply CancelFirst.append_other _ _ h4; simp [shutdown_not_mem_logAct]))

/-- The invariant holds after every run from a state in which it holds. -/
lemma inv_exec (es : List Event) (s t : Service) (hi : Inv s) (h : exec s es = some t) :
    Inv t := by
  induction es generalizing s with
  | nil => simp only [exec, Option.some.injEq] at h; exact h ▸ hi
  | cons e es ih =>
    simp only [exec] at h
    cases hs : step s e with
    | none => simp [hs] at h
    | some u => rw [hs] at h; exact ih u (inv_step s u e hi hs) h

/-- No step changes the configured address or the global level. -/
lemma config_step (s t : Service) (e : Event) (h : step s e = some t) :
    t.listenOn = s.listenOn ∧ t.level = s.level := by
  unfold step at h
  split at h
  · cases h
  · cases e <;> dsimp only at h <;> (repeat' split at h) <;> cases h <;> exact ⟨rfl, rfl⟩

/-- No run changes the configured address or the global level. -/
lemma config_exec (es : List Event) (s t : Service) (h : exec s es = some t) :
    t.listenOn = s.listenOn ∧ t.level = s.level := by
  induction es generalizing s with
  | nil => simp only [exec, Option.some.injEq] at h; rw [← h]; exact ⟨rfl, rfl⟩
  | cons e es ih =>
    simp only [exec] at h
    cases hs : step s e with
    | none => simp [hs] at h
    | some u =>
      rw [hs] at h
      exact ⟨(ih u h).1.trans (config_step s u e hs).1, (ih u h).2.trans (config_step s u e hs).2⟩

/-- A cancelled context stays cancelled. -/
lemma cancelled_step (s t : Service) (e : Event) (h : step s e = some t)
    (hc : s.cancelled = true) : t.cancelled = true := by
  unfold step at h
  split at h
  · cases h
  · cases e <;> dsimp only at h <;> (repeat' split at h) <;> cases h <;> simp_all

/-- A cancelled context stays cancelled along a run. -/
lemma cancelled_exec (es : List Event) (s t : Service) (h : exec s es = some t)
    (hc : s.cancelled = true) : t.cancelled = true := by
  induction es generalizing s with
  | nil => simp only [exec, Option.some.injEq] at h; rw [← h]; exact hc
  | cons e es ih =>
    simp only [exec] at h
    cases hs : step s e with
    | none => simp [hs] at h
    | some u => rw [hs] at h; exact ih u h (cancelled_step s u e hs hc)

/-- Handling a trigger cancels the context. -/
lemma trigger_cancels (s t : Service) (e : Event) (h : step s e = some t)
    (ht : isTrigger s.listenOn e = true) : t.cancelled = true := by
  unfold step at h
  split at h
  · cases h
  · cases e <;> dsimp only at h <;> (repeat' split at h) <;> cases h <;>
      simp_all [isTrigger]

/-- Handling a trigger once the context is cancelled leaves the lifecycle
state as it is. -/
lemma trigger_after_cancel (s t : Service) (e : Event) (h : step s e = some t)
    (ht : isTrigger s.listenOn e = true) (hc : s.cancelled = true) :
    lifecycle t = lifecycle s := by
  unfold step at h
  split at h
  · cases h
  · cases e <;> dsimp only at h <;> (repeat' split at h) <;> cases h <;>
      simp_all [isTrigger, lifecycle, phase, shutdownsOf_append, shutdownsOf_logAct,
        shutdownsOf_cancel]

/-- C9: in every execution of the service, whatever the configuration and
however often and in whatever order listener failures, the missing-address
check and signals occur, `Shutdown` is called at most once; every call of it
comes after a `cancel` of the shared context; every call of it is given a
grace period of 30 seconds; handling a trigger after an earlier trigger has
been handled leaves the lifecycle state (cancellation token, phase, error
slot, `Shutdown` calls) unchanged; and the delivery of a signal (which ends the
process before the signal goroutine has subscribed, and is buffered or dropped
afterwards) performs no action and never changes the lifecycle state. -/
theorem shutdown_at_most_once (env : Environ) (es : List Event) (s : Service)
    (h : exec (boot env) es = some s) :
    (shutdownsOf s.effects).length ≤ 1 ∧
    (∀ pre g post, s.effects = pre ++ Act.shutdown g :: post → Act.cancel ∈ pre) ∧
    (∀ g ∈ shutdownsOf s.effects, g = 30 * 1000000000) ∧
    (∀ es1 u es2 v t, es = es1 ++ u :: es2 → isTrigger (cfgListenOn env) u = true →
      isTrigger (cfgListenOn env) v = true → step s v = some t →
      lifecycle t = lifecycle s) ∧
    (∀ sig t, step s (.signal sig) = some t →
      lifecycle t = lifecycle s ∧ t.effects = s.effects) := by
  have hi := inv_exec es (boot env) s (inv_boot env) h
  have hl : s.listenOn = cfgListenOn env := (config_exec es (boot env) s h).1
  refine ⟨?_, hi.cancelFirst, ?_, ?_, ?_⟩
  · rw [hi.shutdowns]; split <;> simp
  · intro g hg
    rw [hi.shutdowns] at hg
    split at hg
    · simp at hg
    · simpa [shutdownTimeout, second] using hg
  · intro es1 u es2 v t hes hu hv hstep
    subst hes
    rw [exec_append] at h
    cases h1 : exec (boot env) es1 with
    | none => simp [h1] at h
    | some s1 =>
      simp only [h1, Option.some_bind, exec] at h
      cases h2 : step s1 u with
      | none => simp [h2] at h
      | some s2 =>
        simp only [h2, Option.some_bind] at h
        have hl1 : s1.listenOn = cfgListenOn env := (config_exec es1 (boot env) s1 h1).1
        have hc2 : s2.cancelled = true := trigger_cancels s1 s2 u h2 (by rw [hl1]; exact hu)
        have hc : s.cancelled = true := cancelled_exec es2 s2 s h hc2
        exact trigger_after_cancel s t v hstep (by rw [hl]; exact hv) hc
  · intro sig t hstep
    unfold step at hstep
    split at hstep
    · cases hstep
    · dsimp only at hstep
      (repeat' split at hstep) <;> cases hstep <;> simp [lifecycle, phase]

/-- Witness: the listener is started, a signal is caught, `Shutdown` is called;
a listener failure handled afterwards changes nothing of the lifecycle state. -/
theorem shutdown_at_most_once_witness :
    exec (boot sampleEnv) sampleRun = some sampleState ∧
    (shutdownsOf sampleState.effects).length ≤ 1 ∧
    Act.cancel ∈
      [Act.start "127.0.0.1:8080", Act.log "warn" "Signal 'interrupt' was caught. Exiting",
       Act.cancel] ∧
    lifecycle sampleFailed = lifecycle sampleState :=
  have h := shutdown_at_most_once sampleEnv sampleRun sampleState (by decide)
  ⟨by decide, h.1,
   h.2.1 [Act.start "127.0.0.1:8080", Act.log "warn" "Signal 'interrupt' was caught. Exiting",
     Act.cancel] 30000000000 [] (by decide),
   h.2.2.2.1 [.listenerRuns, .watcherRuns, .signal .sigint] .watcherWakes [.runnerWakes]
     (.startFails "accept: too many open files") sampleFailed (by decide) (by decide)
     (by decide) (by decide)⟩

end Rembg
